import Mathlib

/-!
Shallow embedding of src/server.py, a minimal JSON-RPC 2.0 request
handler, together with proofs about its request pipeline
(decode, validate, dispatch, build response).
-/

namespace Server

/-- A decoded JSON value, as produced by json.loads. Numbers are modelled
as rationals (Python ints and booleans and exact float arithmetic);
a decoded Python dict is an association list of string keys, with the
json.loads rule that the last occurrence of a duplicated key wins
(see dictGet below). -/
inductive Jval : Type where
  | null : Jval
  | bool : Bool → Jval
  | num : ℚ → Jval
  | str : String → Jval
  | arr : List Jval → Jval
  | obj : List (String × Jval) → Jval

/-- Python dict lookup on a decoded object: the last binding of a key
wins, matching how json.loads builds the dict from the textual object. -/
def dictGet : List (String × Jval) → String → Option Jval
  | [], _ => none
  | (k, v) :: rest, key =>
      match dictGet rest key with
      | some w => some w
      | none => if k == key then some v else none

/-- Python membership test `key in d` for a decoded dict. -/
def hasKey (kvs : List (String × Jval)) (key : String) : Bool :=
  kvs.any (fun kv => kv.1 == key)

/-- Python `v == s` between a decoded JSON value and a str: among the
JSON-decoded types only a str can compare equal to a str. -/
def pyEqStr (v : Jval) (s : String) : Bool :=
  match v with
  | .str t => t == s
  | _ => false

/-- Numeric view of a decoded value: Python bool is an int subclass
(True == 1, False == 0), so it participates in arithmetic. -/
def toNum? : Jval → Option ℚ
  | .num q => some q
  | .bool b => some (if b then 1 else 0)
  | _ => none

/-- Python binary + on decoded JSON values: numeric addition, string
concatenation, or list concatenation; none models a TypeError. -/
def pyAdd (a b : Jval) : Option Jval :=
  match toNum? a, toNum? b with
  | some x, some y => some (.num (x + y))
  | _, _ =>
      match a, b with
      | .str s, .str t => some (.str (s ++ t))
      | .arr xs, .arr ys => some (.arr (xs ++ ys))
      | _, _ => none

/-- Python binary - on decoded JSON values; none models a TypeError. -/
def pySub (a b : Jval) : Option Jval :=
  match toNum? a, toNum? b with
  | some x, some y => some (.num (x - y))
  | _, _ => none

/-- Python sum(xs): start from the int 0 and fold + over the list left
to right; the first + that fails (TypeError) aborts the whole sum. -/
def pySum (xs : List Jval) : Option Jval :=
  xs.foldl (fun acc x => acc.bind (fun a => pyAdd a x)) (some (Jval.num 0))

/-- Whether a decoded value is a Python list (isinstance(v, list)). -/
def isArr : Jval → Bool
  | .arr _ => true
  | _ => false

/-- The RPCError exception of server.py, lines 15-43: an error code and
the request id to echo (Jval.null models Python None, the default id).
Its message attribute is always get_message applied to the code, which
the embedding applies at the point the error response is built. -/
structure RPCError : Type where
  code : ℚ
  id : Jval

/-- RPCError.get_message, server.py lines 30-43. -/
def get_message (code : ℚ) : String :=
  if code == -32600 then "Invalid Request"
  else if code == -32601 then "Method not found"
  else if code == -32602 then "Invalid parameters"
  else if code == -32700 then "Parse error"
  else "Internal error"

/-- add, server.py lines 68-88: if isinstance(params, list) return
params[0] + params[1], else raise RPCError(-32602, id); the bare except
turns an IndexError (fewer than two elements) or a TypeError (+ not
defined on the first two elements) into the same RPCError(-32602, id). -/
def add (params : Jval) (id : Jval) : Except RPCError Jval :=
  match params with
  | .arr (x :: y :: _) =>
      match pyAdd x y with
      | some v => Except.ok v
      | none => Except.error ⟨-32602, id⟩
  | .arr _ => Except.error ⟨-32602, id⟩
  | _ => Except.error ⟨-32602, id⟩

/-- sum_method, server.py lines 46-65: if isinstance(params, list)
return sum(params), else raise RPCError(-32602); the bare except turns a
TypeError inside sum into the same RPCError(-32602). sum_method never
receives a request id, so its faults carry id None. -/
def sum_method (params : Jval) : Except RPCError Jval :=
  match params with
  | .arr xs =>
      match pySum xs with
      | some v => Except.ok v
      | none => Except.error ⟨-32602, Jval.null⟩
  | _ => Except.error ⟨-32602, Jval.null⟩

/-- subtract, server.py lines 91-113: a dict gives
params["minuend"] - params["subtrahend"], a list gives
params[0] - params[1], anything else raises RPCError(-32602, id); the
bare except turns KeyError, IndexError and TypeError into the same
RPCError(-32602, id). -/
def subtract (params : Jval) (id : Jval) : Except RPCError Jval :=
  match params with
  | .obj kvs =>
      match dictGet kvs "minuend", dictGet kvs "subtrahend" with
      | some a, some b =>
          match pySub a b with
          | some v => Except.ok v
          | none => Except.error ⟨-32602, id⟩
      | _, _ => Except.error ⟨-32602, id⟩
  | .arr (x :: y :: _) =>
      match pySub x y with
      | some v => Except.ok v
      | none => Except.error ⟨-32602, id⟩
  | .arr _ => Except.error ⟨-32602, id⟩
  | _ => Except.error ⟨-32602, id⟩

/-- Outcome of a piece of handler code: a value, a raised RPCError
(caught by the except RPCError clause of handle_request), or an uncaught
exception such as a TypeError, which escapes handle_request. -/
inductive Py (α : Type) : Type where
  | ok : α → Py α
  | fault : RPCError → Py α
  | crash : Py α

/-- Character-list version of: the first list is an initial segment of
the second. -/
def listStarts : List Char → List Char → Bool
  | [], _ => true
  | _ :: _, [] => false
  | a :: as, b :: bs => a == b && listStarts as bs

/-- Character-list version of: the first list occurs contiguously inside
the second. -/
def listHasSub (pat : List Char) : List Char → Bool
  | [] => listStarts pat []
  | b :: bs => listStarts pat (b :: bs) || listHasSub pat bs

/-- Python substring test `pat in s` on strings. -/
def pyStrContains (s pat : String) : Bool :=
  listHasSub pat.toList s.toList

/-- The envelope check of handle_request, server.py lines 128-134:
evaluate, left to right with short-circuit,
"jsonrpc" not in req or req["jsonrpc"] != "2.0" or
"method" not in req or "id" not in req,
and raise RPCError(-32600) when the condition holds. On a decoded dict
this is the intended key check. On a decoded list, `in` is element
membership and the subsequent string index raises a TypeError; on a
decoded string, `in` is the substring test and the subsequent string
index raises a TypeError; on a decoded number, bool or None, `in` itself
raises a TypeError. Those TypeErrors are caught by no except clause of
handle_request, hence Py.crash. -/
def validate : Jval → Py (List (String × Jval))
  | .obj kvs =>
      match dictGet kvs "jsonrpc" with
      | none => Py.fault ⟨-32600, Jval.null⟩
      | some v =>
          if pyEqStr v "2.0" then
            if hasKey kvs "method" then
              if hasKey kvs "id" then Py.ok kvs
              else Py.fault ⟨-32600, Jval.null⟩
            else Py.fault ⟨-32600, Jval.null⟩
          else Py.fault ⟨-32600, Jval.null⟩
  | .arr xs =>
      if xs.any (fun x => pyEqStr x "jsonrpc") then Py.crash
      else Py.fault ⟨-32600, Jval.null⟩
  | .str s =>
      if pyStrContains s "jsonrpc" then Py.crash
      else Py.fault ⟨-32600, Jval.null⟩
  | _ => Py.crash

/-- The error response dict built by the except clauses of
handle_request, lines 149-160: the message is derived from the code
exactly as RPCError does in its constructor. -/
def errorResponse (e : RPCError) : Jval :=
  Jval.obj [("jsonrpc", Jval.str "2.0"),
            ("error", Jval.obj [("code", Jval.num e.code),
                                ("message", Jval.str (get_message e.code))]),
            ("id", e.id)]

/-- The success response of lines 138-145:
response = {"jsonrpc": "2.0", "id": req["id"]} with "result" filled in. -/
def resultResponse (id v : Jval) : Jval :=
  Jval.obj [("jsonrpc", Jval.str "2.0"), ("id", id), ("result", v)]

/-- The unknown-method response of line 147: the error field is set
directly on the success-shaped response, without raising a fault. -/
def notFoundResponse (id : Jval) : Jval :=
  Jval.obj [("jsonrpc", Jval.str "2.0"), ("id", id),
            ("error", Jval.obj [("code", Jval.num (-32601)),
                                ("message", Jval.str "Method not found")])]

/-- Method dispatch of server.py lines 136-147 fused with the
except RPCError handler of lines 155-160: a fault raised by a method
immediately becomes the final error response. The source passes the
request id only to subtract; add and sum_method are called without it,
so their faults carry id None (line 141: add(params);
line 143: sum_method(params); line 145: subtract(params, req["id"])). -/
def dispatch (kvs : List (String × Jval)) : Jval :=
  let id := (dictGet kvs "id").getD Jval.null
  let method := (dictGet kvs "method").getD Jval.null
  let params := (dictGet kvs "params").getD (Jval.arr [])
  if pyEqStr method "add" then
    match add params Jval.null with
    | Except.ok v => resultResponse id v
    | Except.error e => errorResponse e
  else if pyEqStr method "sum" then
    match sum_method params with
    | Except.ok v => resultResponse id v
    | Except.error e => errorResponse e
  else if pyEqStr method "subtract" then
    match subtract params id with
    | Except.ok v => resultResponse id v
    | Except.error e => errorResponse e
  else notFoundResponse id

/-- handle_request, server.py lines 116-162, up to json serialization:
the input none models a request string rejected by json.loads
(the except json.JSONDecodeError branch), and some v models a request
string decoding to the value v. The output some resp models returning
json.dumps(resp); none models an uncaught exception escaping
handle_request. -/
def handle_request (input : Option Jval) : Option Jval :=
  match input with
  | none => some (errorResponse ⟨-32700, Jval.null⟩)
  | some req =>
      match validate req with
      | Py.crash => none
      | Py.fault e => some (errorResponse e)
      | Py.ok kvs => some (dispatch kvs)

/-- A field of a returned response object. -/
def respField (r : Option Jval) (key : String) : Option Jval :=
  match r with
  | some (Jval.obj kvs) => dictGet kvs key
  | _ => none

/-- The code field of a returned response's error object. -/
def respErrCode (r : Option Jval) : Option Jval :=
  match respField r "error" with
  | some (Jval.obj kvs) => dictGet kvs "code"
  | _ => none

/-- The response invariant of the spec: a response is an object whose
jsonrpc field is "2.0" and which carries exactly one of the result and
error fields. -/
def exclusiveOk (resp : Jval) : Prop :=
  ∃ kvs, resp = Jval.obj kvs ∧
    dictGet kvs "jsonrpc" = some (Jval.str "2.0") ∧
    ((hasKey kvs "result" = true ∧ hasKey kvs "error" = false) ∨
     (hasKey kvs "result" = false ∧ hasKey kvs "error" = true))

/-- The request used to probe the add error path: envelope-valid, method
add, a non-list params, and a non-null id. -/
def addBadReq : Jval :=
  Jval.obj [("jsonrpc", Jval.str "2.0"), ("method", Jval.str "add"),
            ("params", Jval.str "oops"), ("id", Jval.num 1)]

/-- The request used to probe the sum error path: envelope-valid, method
sum, a non-list params, and a known (non-null) id. -/
def sumBadReq : Jval :=
  Jval.obj [("jsonrpc", Jval.str "2.0"), ("method", Jval.str "sum"),
            ("params", Jval.str "oops"), ("id", Jval.num 7)]

/-- The request used to probe the unknown-method path. -/
def divideReq : Jval :=
  Jval.obj [("jsonrpc", Jval.str "2.0"), ("method", Jval.str "divide"),
            ("params", Jval.arr []), ("id", Jval.num 1)]

lemma add_of_not_arr (params id : Jval) (h : isArr params = false) :
    add params id = Except.error ⟨-32602, id⟩ := by
  cases params <;> simp_all [add, isArr]

lemma sum_method_of_not_arr (params : Jval) (h : isArr params = false) :
    sum_method params = Except.error ⟨-32602, Jval.null⟩ := by
  cases params <;> simp_all [sum_method, isArr]

lemma pyEqStr_unique (m : Jval) (s t : String) (hm : pyEqStr m s = true)
    (hst : (s == t) = false) : pyEqStr m t = false := by
  cases m <;> simp_all [pyEqStr]

lemma dictGet_isSome_of_hasKey (kvs : List (String × Jval)) (key : String)
    (h : hasKey kvs key = true) : ∃ v, dictGet kvs key = some v := by
  induction kvs with
  | nil => simp [hasKey] at h
  | cons kv rest ih =>
      obtain ⟨k, v⟩ := kv
      rcases hr : dictGet rest key with _ | w
      · rcases hk : (k == key) with _ | _
        · have hrest : hasKey rest key = true := by
            simpa [hasKey, hk] using h
          obtain ⟨w, hw⟩ := ih hrest
          rw [hw] at hr
          exact Option.noConfusion hr
        · exact ⟨v, by simp [dictGet, hr, hk]⟩
      · exact ⟨w, by simp [dictGet, hr]⟩

lemma validate_ok_hasKey_id (kvs : List (String × Jval))
    (h : validate (Jval.obj kvs) = Py.ok kvs) : hasKey kvs "id" = true := by
  simp only [validate] at h
  split at h
  · exact Py.noConfusion h
  · split_ifs at h with h1 h2 h3
    exact h3

lemma validate_obj_ne_crash (kvs : List (String × Jval)) :
    validate (Jval.obj kvs) ≠ Py.crash := by
  simp only [validate]
  split
  · intro h
    exact Py.noConfusion h
  · split_ifs <;> intro h <;> exact Py.noConfusion h

lemma handle_request_validate_ok (kvs : List (String × Jval))
    (h : validate (Jval.obj kvs) = Py.ok kvs) :
    handle_request (some (Jval.obj kvs)) = some (dispatch kvs) := by
  simp only [handle_request]
  rw [h]

lemma exclusiveOk_errorResponse (e : RPCError) :
    exclusiveOk (errorResponse e) :=
  ⟨_, rfl, rfl, Or.inr ⟨rfl, rfl⟩⟩

lemma exclusiveOk_resultResponse (id v : Jval) :
    exclusiveOk (resultResponse id v) :=
  ⟨_, rfl, rfl, Or.inl ⟨rfl, rfl⟩⟩

lemma exclusiveOk_notFoundResponse (id : Jval) :
    exclusiveOk (notFoundResponse id) :=
  ⟨_, rfl, rfl, Or.inr ⟨rfl, rfl⟩⟩

lemma exclusiveOk_dispatch (kvs : List (String × Jval)) :
    exclusiveOk (dispatch kvs) := by
  simp only [dispatch]
  repeat' split
  all_goals
    first
      | exact exclusiveOk_resultResponse _ _
      | exact exclusiveOk_errorResponse _
      | exact exclusiveOk_notFoundResponse _

lemma pySum_map_num (xs : List ℚ) (q : ℚ) :
    List.foldl (fun acc x => acc.bind (fun a => pyAdd a x))
        (some (Jval.num q)) (xs.map Jval.num)
      = some (Jval.num (q + xs.sum)) := by
  induction xs generalizing q with
  | nil => simp
  | cons a as ih =>
      show List.foldl _ (some (Jval.num (q + a))) (as.map Jval.num)
          = some (Jval.num (q + (a :: as).sum))
      rw [ih, List.sum_cons, add_assoc]

/-- C1: the claim says handle_request converts every fault on every input
string into an error Response and never raises. It is refuted by the
input line "5": json.loads succeeds with the int 5, the envelope check
"jsonrpc" not in 5 raises a TypeError (int is not iterable), and no
except clause of handle_request catches a TypeError, so the exception
escapes handle_request instead of yielding a Response. -/
theorem handle_request_crash_on_number :
    handle_request (some (Jval.num 5)) = none := rfl

/-- C4: the claim says every decoded non-object value yields an error
Response with code -32600 and id null. It is refuted by the input line
"null": json.loads succeeds with None, and "jsonrpc" not in None raises
an uncaught TypeError, so no Response is produced at all. -/
theorem handle_request_crash_on_nonobject :
    handle_request (some Jval.null) = none := rfl

/-- C6: for all numbers a and b, subtract on the mapping
with minuend a and subtrahend b, and subtract on the two-element list
[a, b], both return a - b. -/
theorem subtract_mapping_list_agree (a b : ℚ) (id : Jval) :
    subtract (Jval.obj [("minuend", Jval.num a), ("subtrahend", Jval.num b)]) id
        = Except.ok (Jval.num (a - b)) ∧
    subtract (Jval.arr [Jval.num a, Jval.num b]) id
        = Except.ok (Jval.num (a - b)) :=
  ⟨rfl, rfl⟩

/-- C7: for every ordered sequence of numbers xs, sum_method returns the
arithmetic total of xs, and in particular sum_method on the empty list
returns 0. -/
theorem sum_method_total (xs : List ℚ) :
    sum_method (Jval.arr (xs.map Jval.num)) = Except.ok (Jval.num xs.sum) ∧
    sum_method (Jval.arr []) = Except.ok (Jval.num 0) := by
  constructor
  · have h := pySum_map_num xs 0
    rw [zero_add] at h
    simp [sum_method, pySum, h]
  · rfl

/-- C3, counterexample: the claim says add raises a -32602 fault on any
non-numeric elements, but add on the list ["a", "b"] returns the Python
string concatenation "ab" instead of a fault. -/
theorem add_concat_counterexample :
    add (Jval.arr [Jval.str "a", Jval.str "b"]) Jval.null
        = Except.ok (Jval.str "ab") ∧
    Except.ok (Jval.str "ab")
        ≠ (Except.error ⟨-32602, Jval.null⟩ : Except RPCError Jval) :=
  ⟨rfl, fun h => Except.noConfusion h⟩

/-- C3, amended: if params is a list of length at least 2 whose first
two elements are numeric, add returns their sum; add raises a fault with
code -32602 when params is not a list, when it has fewer than two
elements, or when Python + is undefined on its first two elements (but
not on non-numeric element pairs that + accepts, such as two strings). -/
theorem add_characterisation (params id : Jval) :
    (∀ x y rest a b, params = Jval.arr (x :: y :: rest) →
        toNum? x = some a → toNum? y = some b →
        add params id = Except.ok (Jval.num (a + b))) ∧
    (∀ x y rest, params = Jval.arr (x :: y :: rest) → pyAdd x y = none →
        add params id = Except.error ⟨-32602, id⟩) ∧
    (∀ xs, params = Jval.arr xs → xs.length < (2 : ℕ) →
        add params id = Except.error ⟨-32602, id⟩) ∧
    (isArr params = false → add params id = Except.error ⟨-32602, id⟩) := by
  refine ⟨?_, ?_, ?_, ?_⟩
  · rintro x y rest a b rfl hx hy
    simp [add, pyAdd, hx, hy]
  · rintro x y rest rfl hxy
    simp [add, hxy]
  · rintro xs rfl hlen
    rcases xs with _ | ⟨x, _ | ⟨y, rest⟩⟩
    · rfl
    · rfl
    · simp only [List.length_cons] at hlen
      omega
  · intro h
    exact add_of_not_arr params id h

/-- Witness for the amended C3 theorem at concrete inputs. -/
theorem add_characterisation_witness :
    add (Jval.arr [Jval.num 2, Jval.num 3]) Jval.null
        = Except.ok (Jval.num (2 + 3)) ∧
    add (Jval.str "x") Jval.null = Except.error ⟨-32602, Jval.null⟩ :=
  ⟨(add_characterisation (Jval.arr [Jval.num 2, Jval.num 3]) Jval.null).1
      (Jval.num 2) (Jval.num 3) [] 2 3 rfl rfl rfl,
   (add_characterisation (Jval.str "x") Jval.null).2.2.2 rfl⟩

/-- C2, counterexample: the claim says a well-enveloped add request with
non-list params yields error code -32602 with the original request id
echoed; on the request with params "oops" and id 1 the code is -32602
but the response id is null, because line 141 calls add(params) without
passing req["id"], so the fault carries the default id None. -/
theorem add_bad_params_counterexample :
    respErrCode (handle_request (some addBadReq)) = some (Jval.num (-32602)) ∧
    respField (handle_request (some addBadReq)) "id" = some Jval.null ∧
    Jval.null ≠ Jval.num 1 :=
  ⟨rfl, rfl, fun h => Jval.noConfusion h⟩

/-- C2, amended: for every request that passes envelope validation, has
method add, and whose params value is not a list, handle_request
produces an error Response with error code -32602 and id null (the
request id is not echoed, because add is called without it). -/
theorem add_bad_params_id_null (kvs : List (String × Jval))
    (hval : validate (Jval.obj kvs) = Py.ok kvs)
    (hm : pyEqStr ((dictGet kvs "method").getD Jval.null) "add" = true)
    (hp : isArr ((dictGet kvs "params").getD (Jval.arr [])) = false) :
    respErrCode (handle_request (some (Jval.obj kvs)))
        = some (Jval.num (-32602)) ∧
    respField (handle_request (some (Jval.obj kvs))) "id" = some Jval.null := by
  have hr := handle_request_validate_ok kvs hval
  have hd : dispatch kvs = errorResponse ⟨-32602, Jval.null⟩ := by
    simp [dispatch, hm, add_of_not_arr _ _ hp]
  rw [hr, hd]
  exact ⟨rfl, rfl⟩

/-- Witness for the amended C2 theorem at the concrete request
addBadReq. -/
theorem add_bad_params_id_null_witness :
    respErrCode (handle_request (some addBadReq)) = some (Jval.num (-32602)) ∧
    respField (handle_request (some addBadReq)) "id" = some Jval.null :=
  add_bad_params_id_null
    [("jsonrpc", Jval.str "2.0"), ("method", Jval.str "add"),
     ("params", Jval.str "oops"), ("id", Jval.num 1)] rfl rfl rfl

/-- C8: for every request that passes envelope validation, has method
sum, and whose params value is not a list, handle_request produces an
error Response with error code -32602 and id null, even when the
top-level request id is known: sum_method is called without the request
id, so its fault carries the default id None. -/
theorem sum_bad_params_id_null (kvs : List (String × Jval))
    (hval : validate (Jval.obj kvs) = Py.ok kvs)
    (hm : pyEqStr ((dictGet kvs "method").getD Jval.null) "sum" = true)
    (hp : isArr ((dictGet kvs "params").getD (Jval.arr [])) = false) :
    respErrCode (handle_request (some (Jval.obj kvs)))
        = some (Jval.num (-32602)) ∧
    respField (handle_request (some (Jval.obj kvs))) "id" = some Jval.null := by
  have hr := handle_request_validate_ok kvs hval
  have hadd : pyEqStr ((dictGet kvs "method").getD Jval.null) "add" = false :=
    pyEqStr_unique _ "sum" "add" hm rfl
  have hd : dispatch kvs = errorResponse ⟨-32602, Jval.null⟩ := by
    simp [dispatch, hadd, hm, sum_method_of_not_arr _ hp]
  rw [hr, hd]
  exact ⟨rfl, rfl⟩

/-- Witness for the C8 theorem at the concrete request sumBadReq, whose
top-level id is the known value 7. -/
theorem sum_bad_params_id_null_witness :
    respErrCode (handle_request (some sumBadReq)) = some (Jval.num (-32602)) ∧
    respField (handle_request (some sumBadReq)) "id" = some Jval.null :=
  sum_bad_params_id_null
    [("jsonrpc", Jval.str "2.0"), ("method", Jval.str "sum"),
     ("params", Jval.str "oops"), ("id", Jval.num 7)] rfl rfl rfl

/-- C9: for every request that passes envelope validation and whose
method matches none of add, sum and subtract, handle_request directly
produces a Response whose error field is the object with code -32601 and
message "Method not found", whose result field is unset, and whose id
echoes the original request id. -/
theorem unknown_method_response (kvs : List (String × Jval))
    (hval : validate (Jval.obj kvs) = Py.ok kvs)
    (h1 : pyEqStr ((dictGet kvs "method").getD Jval.null) "add" = false)
    (h2 : pyEqStr ((dictGet kvs "method").getD Jval.null) "sum" = false)
    (h3 : pyEqStr ((dictGet kvs "method").getD Jval.null) "subtract" = false) :
    respField (handle_request (some (Jval.obj kvs))) "error"
        = some (Jval.obj [("code", Jval.num (-32601)),
                          ("message", Jval.str "Method not found")]) ∧
    respField (handle_request (some (Jval.obj kvs))) "result" = none ∧
    respField (handle_request (some (Jval.obj kvs))) "id"
        = dictGet kvs "id" := by
  have hr := handle_request_validate_ok kvs hval
  have hd : dispatch kvs
      = notFoundResponse ((dictGet kvs "id").getD Jval.null) := by
    simp [dispatch, h1, h2, h3]
  obtain ⟨w, hw⟩ :=
    dictGet_isSome_of_hasKey kvs "id" (validate_ok_hasKey_id kvs hval)
  rw [hr, hd, hw]
  exact ⟨rfl, rfl, rfl⟩

/-- Witness for the C9 theorem at the concrete request divideReq. -/
theorem unknown_method_response_witness :
    respField (handle_request (some divideReq)) "error"
        = some (Jval.obj [("code", Jval.num (-32601)),
                          ("message", Jval.str "Method not found")]) ∧
    respField (handle_request (some divideReq)) "result" = none ∧
    respField (handle_request (some divideReq)) "id"
        = dictGet [("jsonrpc", Jval.str "2.0"), ("method", Jval.str "divide"),
                   ("params", Jval.arr []), ("id", Jval.num 1)] "id" :=
  unknown_method_response
    [("jsonrpc", Jval.str "2.0"), ("method", Jval.str "divide"),
     ("params", Jval.arr []), ("id", Jval.num 1)] rfl rfl rfl rfl

/-- C5: every Response that handle_request produces is an object with
jsonrpc equal to "2.0" carrying exactly one of the result and error
fields, never both and never neither. -/
theorem handle_request_exclusive (input : Option Jval) (resp : Jval)
    (h : handle_request input = some resp) : exclusiveOk resp := by
  cases input with
  | none =>
      obtain rfl : errorResponse ⟨-32700, Jval.null⟩ = resp :=
        Option.some.inj h
      exact exclusiveOk_errorResponse _
  | some req =>
      simp only [handle_request] at h
      cases hv : validate req with
      | crash =>
          rw [hv] at h
          exact Option.noConfusion h
      | fault e =>
          rw [hv] at h
          obtain rfl : errorResponse e = resp := Option.some.inj h
          exact exclusiveOk_errorResponse e
      | ok kvs =>
          rw [hv] at h
          obtain rfl : dispatch kvs = resp := Option.some.inj h
          exact exclusiveOk_dispatch kvs

/-- Witness for the C5 theorem at the concrete parse-failure input. -/
theorem handle_request_exclusive_witness :
    exclusiveOk (errorResponse ⟨-32700, Jval.null⟩) :=
  handle_request_exclusive none (errorResponse ⟨-32700, Jval.null⟩) rfl

/-- C10: for every input whose decoding succeeds and yields an object,
handle_request terminates normally and returns a response: on the
object domain the envelope check cannot raise a TypeError and the
methods convert every internal exception into a caught RPCError. -/
theorem handle_request_obj_total (kvs : List (String × Jval)) :
    ∃ resp, handle_request (some (Jval.obj kvs)) = some resp := by
  simp only [handle_request]
  cases hv : validate (Jval.obj kvs) with
  | crash => exact absurd hv (validate_obj_ne_crash kvs)
  | fault e => exact ⟨_, rfl⟩
  | ok kvs2 => exact ⟨_, rfl⟩

end Server
